import Mathlib

/-!
Verification of the spawn-server subsystem of libcommon.

Shallow embedding of `src/spawn/Server.cxx` and `src/spawn/CgroupState.cxx`:
the EXEC payload parser (`SpawnServerConnection::HandleExecMessage`), the
per-connection response queues (`SendExecComplete` / `SendExit` /
`FlushExecCompleteQueue` / `FlushExitQueue`), the kill handler
(`HandleOneKill`), exit notification (`OnChildProcessExit`), and the cgroup
controller-enablement routine (`CgroupState::EnableAllControllers`).

Byte-level TLV decoding lives in `Parser.hxx`, which is outside the sources
under verification; the payload is therefore modelled as a list of already
decoded commands, exactly mirroring the per-command control flow of the
`switch` statement in `HandleExecMessage`.  Incoming file descriptors are
modelled as a list of numbers consumed left to right, as `SpawnFdList` does.
-/

namespace SpawnServer

/-- The only error the payload parser throws: `MalformedSpawnPayloadError`. -/
inductive SpawnErr where
  | malformedPayload
deriving Repr, DecidableEq

/-- A child record owned by a connection: `SpawnServerChild` carries the id
(the map key), the pidfd and the name. -/
structure ChildRecord where
  pidfd : Nat
  name : String
deriving Repr, DecidableEq

/-- The fields of `PreparedChildProcess` that the EXEC parser populates.
File descriptors are `Option Nat` with `none` standing for
`FileDescriptor::Undefined()`, their initial value.  `cgroup = none` models
the `p.cgroup == nullptr` state before a CGROUP tag has been processed. -/
structure PreparedChildProcess where
  exec_path : Option String := none
  exec_fd : Option Nat := none
  args : List String := []
  env : List String := []
  umask : Option Nat := none
  stdin_fd : Option Nat := none
  stdout_fd : Option Nat := none
  stderr_fd : Option Nat := none
  stderr_path : Option String := none
  hostname : Option String := none
  uid_gid : Option (Nat × Nat) := none
  cgroup : Option String := none
  cgroup_session : Option String := none
  cgroup_set : List (String × String) := []
  cgroup_xattr : List (String × String) := []
  tty : Bool := false
  no_new_privs : Bool := false
  priority : Int := 0
  chroot : Option String := none
  chdir : Option String := none
  hook_info : Option String := none
deriving Repr, DecidableEq

/-- One decoded command of the EXEC TLV stream (`SpawnExecCommand`), with its
already-decoded body. -/
inductive SpawnExecCommand where
  | EXEC_PATH (path : String)
  | EXEC_FD
  | ARG (s : String)
  | SETENV (s : String)
  | UMASK (value : Nat)
  | STDIN
  | STDOUT
  | STDOUT_IS_STDIN
  | STDERR
  | STDERR_IS_STDIN
  | STDERR_PATH (path : String)
  | HOSTNAME (h : String)
  | UID_GID (uid gid : Nat) (groups : List Nat)
  | TTY
  | NO_NEW_PRIVS
  | PRIORITY (n : Int)
  | CHROOT (path : String)
  | CHDIR (path : String)
  | HOOK_INFO (s : String)
  | CGROUP (cname : String)
  | CGROUP_SESSION (sname : String)
  | CGROUP_SET (sname svalue : String)
  | CGROUP_XATTR (xname xvalue : String)
deriving Repr, DecidableEq

/-- `SpawnFdList::Borrow` / `Get`: consume the next fd of the message,
throwing `MalformedSpawnPayloadError` when the list is exhausted. -/
def borrowFd (fds : List Nat) : Except SpawnErr (Nat × List Nat) :=
  match fds with
  | [] => .error .malformedPayload
  | f :: rest => .ok (f, rest)

/-- Modelled from the spec: the capacity of `UidGid::groups`
(`UidGid.hxx` is not among the sources; the spec gives
"implementation-defined, e.g. 32").  `Read(payload, UidGid)` throws when
`n_groups` exceeds it. -/
def uidGidMaxGroups : Nat := 32

/-- One iteration of the `switch` in
`SpawnServerConnection::HandleExecMessage`: process a single decoded command
against the `PreparedChildProcess` under construction and the remaining fd
list. -/
def handleExecCommand (p : PreparedChildProcess) (fds : List Nat) :
    SpawnExecCommand → Except SpawnErr (PreparedChildProcess × List Nat)
  | .EXEC_PATH s => .ok ({ p with exec_path := some s }, fds)
  | .EXEC_FD =>
      match borrowFd fds with
      | .error e => .error e
      | .ok (f, rest) => .ok ({ p with exec_fd := some f }, rest)
  | .ARG s =>
      if p.args.length ≥ 16384 then .error .malformedPayload
      else .ok ({ p with args := p.args ++ [s] }, fds)
  | .SETENV s =>
      if p.env.length ≥ 16384 then .error .malformedPayload
      else .ok ({ p with env := p.env ++ [s] }, fds)
  | .UMASK v => .ok ({ p with umask := some v }, fds)
  | .STDIN =>
      match borrowFd fds with
      | .error e => .error e
      | .ok (f, rest) => .ok ({ p with stdin_fd := some f }, rest)
  | .STDOUT =>
      match borrowFd fds with
      | .error e => .error e
      | .ok (f, rest) => .ok ({ p with stdout_fd := some f }, rest)
  | .STDOUT_IS_STDIN => .ok ({ p with stdout_fd := p.stdin_fd }, fds)
  | .STDERR =>
      match borrowFd fds with
      | .error e => .error e
      | .ok (f, rest) => .ok ({ p with stderr_fd := some f }, rest)
  | .STDERR_IS_STDIN => .ok ({ p with stderr_fd := p.stdin_fd }, fds)
  | .STDERR_PATH s => .ok ({ p with stderr_path := some s }, fds)
  | .HOSTNAME h => .ok ({ p with hostname := some h }, fds)
  | .UID_GID u g groups =>
      if groups.length > uidGidMaxGroups then .error .malformedPayload
      else .ok ({ p with uid_gid := some (u, g) }, fds)
  | .TTY => .ok ({ p with tty := true }, fds)
  | .NO_NEW_PRIVS => .ok ({ p with no_new_privs := true }, fds)
  | .PRIORITY n => .ok ({ p with priority := n }, fds)
  | .CHROOT s => .ok ({ p with chroot := some s }, fds)
  | .CHDIR s => .ok ({ p with chdir := some s }, fds)
  | .HOOK_INFO s => .ok ({ p with hook_info := some s }, fds)
  | .CGROUP cname =>
      match p.cgroup with
      | some _ => .error .malformedPayload
      | none => .ok ({ p with cgroup := some cname }, fds)
  | .CGROUP_SESSION sname =>
      match p.cgroup with
      | none => .error .malformedPayload
      | some _ => .ok ({ p with cgroup_session := some sname }, fds)
  | .CGROUP_SET sname svalue =>
      match p.cgroup with
      | some _ => .ok ({ p with cgroup_set := (sname, svalue) :: p.cgroup_set }, fds)
      | none => .error .malformedPayload
  | .CGROUP_XATTR xname xvalue =>
      match p.cgroup with
      | some _ => .ok ({ p with cgroup_xattr := (xname, xvalue) :: p.cgroup_xattr }, fds)
      | none => .error .malformedPayload

/-- The `while (!payload.empty())` loop of `HandleExecMessage`: fold
`handleExecCommand` over the decoded command stream. -/
def parseExec : List SpawnExecCommand → PreparedChildProcess → List Nat →
    Except SpawnErr (PreparedChildProcess × List Nat)
  | [], p, fds => .ok (p, fds)
  | c :: rest, p, fds =>
      match handleExecCommand p fds c with
      | .error e => .error e
      | .ok (p', fds') => parseExec rest p' fds'

/-- The freshly default-initialized `PreparedChildProcess p` at the top of
`HandleExecMessage`. -/
def initPrepared : PreparedChildProcess := {}

/-- Per-connection session state (`SpawnServerConnection`): the id-keyed
children map and the two response queues.  The queues are
`std::forward_list`s whose head is the list head; `emplace_front` /
`push_front` cons onto the head. -/
structure Connection where
  children : List (Nat × ChildRecord) := []
  exec_complete_queue : List (Nat × String) := []
  exit_queue : List (Nat × Int) := []
deriving Repr, DecidableEq

/-- `SpawnServerConnection::SendExecComplete`:
`exec_complete_queue.emplace_front(id, error)`. -/
def sendExecComplete (id : Nat) (error : String) (conn : Connection) : Connection :=
  { conn with exec_complete_queue := (id, error) :: conn.exec_complete_queue }

/-- `SpawnServerConnection::SendExit`: `exit_queue.push_front({id, status})`. -/
def sendExit (id : Nat) (status : Int) (conn : Connection) : Connection :=
  { conn with exit_queue := (id, status) :: conn.exit_queue }

/-- Pop up to `n` items off the front of a list, returning them in pop order
together with the remainder; this is the `for (n < 64 && !queue.empty())
{ serialize front; pop_front }` loop body of the flush routines. -/
def popFront {α : Type} : Nat → List α → List α × List α
  | 0, l => ([], l)
  | _ + 1, [] => ([], [])
  | n + 1, x :: l =>
      let r := popFront n l
      (x :: r.1, r.2)

/-- `SpawnServerConnection::FlushExecCompleteQueue`: serialize and send up to
64 items popped from the queue front; returns the serialized batch in send
order and the connection with the remaining queue. -/
def flushExecCompleteQueue (conn : Connection) :
    List (Nat × String) × Connection :=
  match conn.exec_complete_queue with
  | [] => ([], conn)
  | q =>
      let r := popFront 64 q
      (r.1, { conn with exec_complete_queue := r.2 })

/-- `SpawnServerConnection::FlushExitQueue`: same batching for the EXIT
queue. -/
def flushExitQueue (conn : Connection) : List (Nat × Int) × Connection :=
  match conn.exit_queue with
  | [] => ([], conn)
  | q =>
      let r := popFront 64 q
      (r.1, { conn with exit_queue := r.2 })

/-- `SpawnServerConnection::HandleOneKill`: read one `(id, signo)` pair, look
the id up in the children map; if absent, return silently; otherwise erase
the record and hand its pidfd with the signal to the registry.  The second
component is the list of `(pidfd, signo)` dispatches performed. -/
def handleOneKill (conn : Connection) (id : Nat) (signo : Int) :
    Connection × List (Nat × Int) :=
  match conn.children.lookup id with
  | none => (conn, [])
  | some child =>
      ({ conn with children := conn.children.eraseP (fun e => e.1 == id) },
       [(child.pidfd, signo)])

/-- `SpawnServerConnection::HandleKillMessage`: the fd list must be empty,
then each `(id, signo)` pair is processed in order. -/
def handleKillMessage (conn : Connection) (pairs : List (Nat × Int))
    (fds : List Nat) : Except SpawnErr (Connection × List (Nat × Int)) :=
  match fds with
  | _ :: _ => .error .malformedPayload
  | [] =>
      .ok (pairs.foldl
        (fun acc pr =>
          let r := handleOneKill acc.1 pr.1 pr.2
          (r.1, acc.2 ++ r.2))
        (conn, []))

/-- `SpawnServerConnection::OnChildProcessExit` (via
`SpawnServerChild::OnChildProcessExit`): the pidfd watcher exists only for a
child registered in the map; firing erases the record and enqueues
`EXIT(id, status)`.  A child removed by `HandleOneKill` had its pidfd moved
into the `ChildProcessRegistry` (`Kill` receives only the pidfd and the
signal, no connection reference), so its termination never reaches the
connection: for an unregistered id this event is a no-op. -/
def onChildProcessExit (conn : Connection) (id : Nat) (status : Int) :
    Connection :=
  match conn.children.lookup id with
  | none => conn
  | some _ =>
      sendExit id status
        { conn with children := conn.children.eraseP (fun e => e.1 == id) }

/-- Modelled from the spec: `SpawnConfig::Verify` (`Config.hxx/cxx` is not
among the sources) checks a request's uid/gid against the configured allowed
sets and throws an authorization error with a non-empty message when it
rejects them (spec §6.4 / `AuthorizationDenied`). -/
def configVerify (cfgAllowed : Nat × Nat → Bool) (ug : Nat × Nat) :
    Except String Unit :=
  if cfgAllowed ug then .ok () else .error "Unauthorized uid/gid"

/-- `SpawnServerProcess::Verify`: `hook != nullptr && hook->Verify(p)`.  The
hook (spec §6.4) is modelled as an optional predicate on the prepared
child. -/
def processVerify (hook : Option (PreparedChildProcess → Bool))
    (p : PreparedChildProcess) : Bool :=
  match hook with
  | none => false
  | some v => v p

/-- The credential checks at the top of `SpawnServerConnection::SpawnChild`:
a non-empty uid/gid must pass the hook or `config.Verify`; an empty uid/gid
is replaced by `config.default_uid_gid`, and its absence throws
`std::invalid_argument{"No uid/gid specified"}`.  Errors are the exception
message (always non-empty). -/
def spawnChildCheck (hook : Option (PreparedChildProcess → Bool))
    (cfgAllowed : Nat × Nat → Bool) (cfgDefault : Option (Nat × Nat))
    (p : PreparedChildProcess) : Except String PreparedChildProcess :=
  match p.uid_gid with
  | some ug =>
      if processVerify hook p then .ok p
      else
        match configVerify cfgAllowed ug with
        | .error e => .error e
        | .ok () => .ok p
  | none =>
      match cfgDefault with
      | none => .error "No uid/gid specified"
      | some d => .ok { p with uid_gid := some d }

/-- `SpawnServerConnection::SpawnChild`: verify credentials, fork the child
(`SpawnChildProcess`, modelled as succeeding with pidfd `newPidfd`), and
insert the new `SpawnServerChild` into the children map. -/
def spawnChild (hook : Option (PreparedChildProcess → Bool))
    (cfgAllowed : Nat × Nat → Bool) (cfgDefault : Option (Nat × Nat))
    (newPidfd : Nat) (conn : Connection) (id : Nat) (cname : String)
    (p : PreparedChildProcess) : Except String Connection :=
  match spawnChildCheck hook cfgAllowed cfgDefault p with
  | .error e => .error e
  | .ok _ =>
      .ok { conn with
            children := (id, { pidfd := newPidfd, name := cname }) :: conn.children }

/-- `W_EXITCODE(0xff, 0)`: the synthetic wait status for a spawn failure. -/
def spawnFailureStatus : Int := 65280

/-- `SpawnServerConnection::HandleExecMessage` after the id and name have
been read: parse the command stream, then `try { SpawnChild;
SendExecComplete(id, empty) } catch { SendExecComplete(id, message);
SendExit(id, W_EXITCODE(0xff, 0)) }`.  A parse failure propagates out of the
handler (to `ReceiveAndHandle`) without touching the connection. -/
def handleExecMessage (hook : Option (PreparedChildProcess → Bool))
    (cfgAllowed : Nat × Nat → Bool) (cfgDefault : Option (Nat × Nat))
    (newPidfd : Nat) (conn : Connection) (id : Nat) (cname : String)
    (cmds : List SpawnExecCommand) (fds : List Nat) :
    Except SpawnErr Connection :=
  match parseExec cmds initPrepared fds with
  | .error e => .error e
  | .ok (p, _) =>
      match spawnChild hook cfgAllowed cfgDefault newPidfd conn id cname p with
      | .ok conn' => .ok (sendExecComplete id "" conn')
      | .error msg =>
          .ok (sendExit id spawnFailureStatus (sendExecComplete id msg conn))

/-- One framed request message after its command byte has been decoded. -/
inductive RequestMsg where
  | connect
  | exec (id : Nat) (cname : String) (cmds : List SpawnExecCommand)
  | kill (pairs : List (Nat × Int))
deriving Repr

/-- `SpawnServerConnection::HandleMessage`: dispatch on the command byte.
CONNECT requires an empty remaining payload (built into the constructor) and
exactly one fd; the adopted socket is handled at the process level and does
not change this connection.  The second result component lists the
`(pidfd, signo)` signal dispatches performed. -/
def handleMessage (hook : Option (PreparedChildProcess → Bool))
    (cfgAllowed : Nat × Nat → Bool) (cfgDefault : Option (Nat × Nat))
    (newPidfd : Nat) (conn : Connection) (msg : RequestMsg) (fds : List Nat) :
    Except SpawnErr (Connection × List (Nat × Int)) :=
  match msg with
  | .connect =>
      if fds.length = 1 then .ok (conn, []) else .error .malformedPayload
  | .exec id cname cmds =>
      match handleExecMessage hook cfgAllowed cfgDefault newPidfd conn id cname cmds fds with
      | .error e => .error e
      | .ok conn' => .ok (conn', [])
  | .kill pairs => handleKillMessage conn pairs fds

/-- `SpawnServerConnection::ReceiveAndHandle` for a non-empty payload: handle
the message; a `MalformedSpawnPayloadError` is caught and logged, leaving the
connection alive and unchanged.  Result: the connection afterwards, whether
it is still alive (`true` — the malformed path never tears it down), and the
signal dispatches. -/
def receiveAndHandle (hook : Option (PreparedChildProcess → Bool))
    (cfgAllowed : Nat × Nat → Bool) (cfgDefault : Option (Nat × Nat))
    (newPidfd : Nat) (conn : Connection) (msg : RequestMsg) (fds : List Nat) :
    Connection × Bool × List (Nat × Int) :=
  match handleMessage hook cfgAllowed cfgDefault newPidfd conn msg fds with
  | .ok (conn', sigs) => (conn', true, sigs)
  | .error .malformedPayload => (conn, true, [])

/-! ## Cgroup controller enablement (`CgroupState.cxx`) -/

/-- One filesystem operation performed by `CgroupState::EnableAllControllers`,
in the order executed. -/
inductive CgroupOp where
  | makeDirectory (parent child : String) (mode : Nat)
  | writeFile (dir file data : String)
  | tryWriteFile (dir file data : String)
deriving Repr, DecidableEq

/-- The name-extraction of `ForEachController`: read `cgroup.controllers`,
return nothing if empty, strip one trailing newline, split on spaces and
skip empty names. -/
def forEachControllerNames (contents : String) : List String :=
  if contents.isEmpty then []
  else
    let stripped :=
      if contents.back = '\n' then contents.dropRight 1 else contents
    (stripped.split (· = ' ')).filter (fun nm => !nm.isEmpty)

/-- The `subtree_control` accumulation loop in `EnableAllControllers`: skip
`cpuset`; otherwise append a space separator when the accumulator is
non-empty, then `+` and the controller name. -/
def buildSubtreeControl (names : List String) : String :=
  names.foldl
    (fun acc c =>
      if c = "cpuset" then acc
      else (if acc.isEmpty then acc else acc.push ' ') ++ ("+" ++ c))
    ""

/-- `CgroupState::EnableAllControllers` as the sequence of filesystem
operations it performs on the group directory `gp`, given the contents of
its `cgroup.controllers` file. -/
def enableAllControllers (gp : String) (controllersContents : String) :
    List CgroupOp :=
  [ .makeDirectory gp "_" 448,
    .writeFile (gp ++ "/_") "cgroup.procs" "0",
    .writeFile gp "cgroup.subtree_control"
      (buildSubtreeControl (forEachControllerNames controllersContents)),
    .tryWriteFile (gp ++ "/_") "cpu.weight" "10000",
    .tryWriteFile (gp ++ "/_") "io.weight" "10000",
    .tryWriteFile (gp ++ "/_") "io.bfq.weight" "1000" ]

/-! ## Theorems -/

/-- C1: for every KILL pair `(id, signo)`: if a child with that id is
registered in the connection's children map, the signal is dispatched to that
child's pidfd (and the record erased); if no child with that id is
registered, the pair is silently ignored — no signal, no enqueued response,
connection state unchanged. -/
theorem kill_dispatches_iff_registered (conn : Connection) (id : Nat)
    (signo : Int) :
    (conn.children.lookup id = none → handleOneKill conn id signo = (conn, [])) ∧
    (∀ c, conn.children.lookup id = some c →
      handleOneKill conn id signo =
        ({ conn with children := conn.children.eraseP (fun e => e.1 == id) },
         [(c.pidfd, signo)])) := by
  constructor
  · intro h
    simp [handleOneKill, h]
  · intro c h
    simp [handleOneKill, h]

/-- Witness for C1 at a concrete connection holding child id 5 with pidfd 9:
a KILL for id 5 dispatches the signal and erases the record; a KILL for the
unregistered id 7 changes nothing and dispatches nothing. -/
theorem kill_dispatches_iff_registered_witness :
    handleOneKill ⟨[(5, ⟨9, "w"⟩)], [], []⟩ 5 15 = (⟨[], [], []⟩, [(9, 15)]) ∧
    handleOneKill ⟨[(5, ⟨9, "w"⟩)], [], []⟩ 7 15 = (⟨[(5, ⟨9, "w"⟩)], [], []⟩, []) := by
  constructor
  · have h := (kill_dispatches_iff_registered ⟨[(5, ⟨9, "w"⟩)], [], []⟩ 5 15).2
      ⟨9, "w"⟩ rfl
    simpa using h
  · have h := (kill_dispatches_iff_registered ⟨[(5, ⟨9, "w"⟩)], [], []⟩ 7 15).1 rfl
    simpa using h

/-- C2 counterexample: the response queues are NOT FIFO.  Enqueue
`(1, "a")` then `(2, "b")` on an idle connection; the flushed batch
serializes `(2, "b")` first — the response enqueued second is sent before
the one enqueued first.  Same for the EXIT queue. -/
theorem response_queues_not_fifo :
    (flushExecCompleteQueue
        (sendExecComplete 2 "b" (sendExecComplete 1 "a" {}))).1 =
      [(2, "b"), (1, "a")] ∧
    (flushExitQueue (sendExit 2 7 (sendExit 1 3 {}))).1 = [(2, 7), (1, 3)] ∧
    [(2, "b"), (1, "a")] ≠ ([(1, "a"), (2, "b")] : List (Nat × String)) := by
  refine ⟨rfl, rfl, by decide⟩

/-- C2 (amended): within each queue responses are sent in LIFO order of
enqueue — `Send*` pushes onto the front of a `forward_list` and the flush
routine pops from the front, so of two responses enqueued while sending is
blocked, the one enqueued second is serialized first. -/
theorem response_queues_lifo (conn : Connection) (id1 id2 : Nat)
    (e1 e2 : String) (s1 s2 : Int) :
    ((flushExecCompleteQueue
        (sendExecComplete id2 e2 (sendExecComplete id1 e1 conn))).1.take 2 =
      [(id2, e2), (id1, e1)]) ∧
    ((flushExitQueue (sendExit id2 s2 (sendExit id1 s1 conn))).1.take 2 =
      [(id2, s2), (id1, s1)]) := by
  exact ⟨rfl, rfl⟩

/-- C5 counterexample: a repeated non-cumulative tag is not rejected — an
EXEC payload with two `EXEC_PATH` tags parses successfully, the second
occurrence overwriting the first. -/
theorem repeated_exec_path_not_rejected :
    parseExec [.EXEC_PATH "/a", .EXEC_PATH "/b"] initPrepared [] =
      .ok ({ initPrepared with exec_path := some "/b" }, []) := rfl

/-- C5 (amended): only the `CGROUP` tag is rejected on repetition; the other
non-cumulative tags (here `EXEC_PATH`, `HOSTNAME`, `STDIN`) may repeat, the
later occurrence overwriting the earlier (an fd-consuming tag consuming a
further fd each time). -/
theorem only_cgroup_tag_rejected_on_repeat (a b h1 h2 : String) (f1 f2 : Nat)
    (fds : List Nat) :
    parseExec [.CGROUP a, .CGROUP b] initPrepared fds =
      .error .malformedPayload ∧
    parseExec [.EXEC_PATH a, .EXEC_PATH b] initPrepared fds =
      .ok ({ initPrepared with exec_path := some b }, fds) ∧
    parseExec [.HOSTNAME h1, .HOSTNAME h2] initPrepared fds =
      .ok ({ initPrepared with hostname := some h2 }, fds) ∧
    parseExec [.STDIN, .STDIN] initPrepared [f1, f2] =
      .ok ({ initPrepared with stdin_fd := some f2 }, []) := by
  exact ⟨rfl, rfl, rfl, rfl⟩

/-- C10: `STDOUT_IS_STDIN` / `STDERR_IS_STDIN` alias to the stdin descriptor
held at the moment the tag is processed: with no earlier `STDIN` tag the
alias copies the undefined descriptor (`none`) and parsing still succeeds,
so tag order within the payload is observable. -/
theorem stdout_is_stdin_aliases_current_value (f : Nat) (fds : List Nat) :
    parseExec [.STDOUT_IS_STDIN] initPrepared fds =
      .ok ({ initPrepared with stdout_fd := none }, fds) ∧
    parseExec [.STDERR_IS_STDIN] initPrepared fds =
      .ok ({ initPrepared with stderr_fd := none }, fds) ∧
    parseExec [.STDIN, .STDOUT_IS_STDIN] initPrepared [f] =
      .ok ({ initPrepared with stdin_fd := some f, stdout_fd := some f }, []) ∧
    parseExec [.STDOUT_IS_STDIN, .STDIN] initPrepared [f] =
      .ok ({ initPrepared with stdin_fd := some f, stdout_fd := none }, []) := by
  exact ⟨rfl, rfl, rfl, rfl⟩

/-- C3: for an EXEC request whose credentials are not accepted — a non-empty
uid/gid rejected by both the hook and the configuration, or an empty uid/gid
with no configured default — the server enqueues `EXEC_COMPLETE(id, error)`
with a non-empty error and `EXIT(id, 0xFF00)`, and registers no child (the
children map is untouched by the resulting connection update). -/
theorem exec_rejected_credentials_response
    (hook : Option (PreparedChildProcess → Bool))
    (cfgAllowed : Nat × Nat → Bool) (cfgDefault : Option (Nat × Nat))
    (newPidfd : Nat) (conn : Connection) (id : Nat) (cname : String)
    (cmds : List SpawnExecCommand) (fds : List Nat)
    (p : PreparedChildProcess) (rest : List Nat)
    (hparse : parseExec cmds initPrepared fds = .ok (p, rest))
    (hrej : match p.uid_gid with
            | some ug => processVerify hook p = false ∧ cfgAllowed ug = false
            | none => cfgDefault = none) :
    ∃ msg, msg ≠ "" ∧
      handleExecMessage hook cfgAllowed cfgDefault newPidfd conn id cname cmds fds =
        .ok { conn with
              exec_complete_queue := (id, msg) :: conn.exec_complete_queue,
              exit_queue := (id, spawnFailureStatus) :: conn.exit_queue } := by
  cases hug : p.uid_gid with
  | none =>
      simp only [hug] at hrej
      refine ⟨"No uid/gid specified", by decide, ?_⟩
      simp [handleExecMessage, hparse, spawnChild, spawnChildCheck, hug, hrej,
            sendExecComplete, sendExit]
  | some ug =>
      simp only [hug] at hrej
      obtain ⟨hv, hc⟩ := hrej
      refine ⟨"Unauthorized uid/gid", by decide, ?_⟩
      simp [handleExecMessage, hparse, spawnChild, spawnChildCheck, hug, hv,
            configVerify, hc, sendExecComplete, sendExit]

/-- Witness for C3: no hook, a configuration rejecting everything and no
default uid/gid; an EXEC with an empty payload (hence empty uid/gid) yields
a non-empty `EXEC_COMPLETE` error and `EXIT(7, 0xFF00)` with no child
registered. -/
theorem exec_rejected_credentials_response_witness :
    ∃ msg, msg ≠ "" ∧
      handleExecMessage none (fun _ => false) none 3 {} 7 "n" [] [] =
        .ok { children := [],
              exec_complete_queue := [(7, msg)],
              exit_queue := [(7, spawnFailureStatus)] } :=
  exec_rejected_credentials_response none (fun _ => false) none 3 {} 7 "n"
    [] [] initPrepared [] rfl rfl

/-- A key absent from an association list is not found by `lookup`. -/
theorem lookup_none_of_not_mem_keys (l : List (Nat × ChildRecord)) (id : Nat)
    (h : id ∉ l.map Prod.fst) : l.lookup id = none := by
  induction l with
  | nil => rfl
  | cons hd tl ih =>
      simp only [List.map_cons, List.mem_cons, not_or] at h
      obtain ⟨h1, h2⟩ := h
      have hb : (id == hd.1) = false := beq_eq_false_iff_ne.mpr h1
      obtain ⟨k, v⟩ := hd
      simp only [List.lookup] at *
      rw [hb]
      exact ih h2

/-- With duplicate-free keys, erasing the entry for `id` makes `lookup id`
come up empty. -/
theorem lookup_eraseP_none (l : List (Nat × ChildRecord)) (id : Nat)
    (hnd : (l.map Prod.fst).Nodup) :
    (l.eraseP (fun e => e.1 == id)).lookup id = none := by
  induction l with
  | nil => rfl
  | cons hd tl ih =>
      simp only [List.map_cons, List.nodup_cons] at hnd
      obtain ⟨hnotin, hnd'⟩ := hnd
      by_cases hk : hd.1 = id
      · have hb : (hd.1 == id) = true := beq_iff_eq.mpr hk
        simp only [List.eraseP_cons, hb, cond_true]
        exact lookup_none_of_not_mem_keys tl id (hk ▸ hnotin)
      · have hb : (hd.1 == id) = false := beq_eq_false_iff_ne.mpr hk
        simp only [List.eraseP_cons, hb, cond_false]
        obtain ⟨k, v⟩ := hd
        simp only [List.lookup]
        rw [beq_eq_false_iff_ne.mpr (Ne.symm hk)]
        exact ih hnd'

/-- C4 counterexample: connection holding live child id 10 (pidfd 42).
KILL `(10, SIGTERM)` dispatches signal 15 to pidfd 42, but when the child
then terminates, no `EXIT` is enqueued for id 10 — the exit queue stays
empty, contradicting "the server subsequently emits EXIT(id, status)". -/
theorem kill_live_child_emits_no_exit :
    (handleOneKill ⟨[(10, ⟨42, "c"⟩)], [], []⟩ 10 15).2 = [(42, 15)] ∧
    onChildProcessExit (handleOneKill ⟨[(10, ⟨42, "c"⟩)], [], []⟩ 10 15).1 10 15 =
      (handleOneKill ⟨[(10, ⟨42, "c"⟩)], [], []⟩ 10 15).1 ∧
    (onChildProcessExit
        (handleOneKill ⟨[(10, ⟨42, "c"⟩)], [], []⟩ 10 15).1 10 15).exit_queue =
      [] := by
  exact ⟨rfl, rfl, rfl⟩

/-- C4 (amended): a KILL for a live registered child dispatches the signal
to its pidfd and removes the record immediately; the pidfd is detached into
the registry, so the child's subsequent termination enqueues no `EXIT` on
the connection, and a second KILL for the same id is a no-op dispatching
nothing. -/
theorem kill_live_child_detaches (conn : Connection) (id : Nat)
    (signo status : Int) (c : ChildRecord)
    (h : conn.children.lookup id = some c)
    (hnd : (conn.children.map Prod.fst).Nodup) :
    (handleOneKill conn id signo).2 = [(c.pidfd, signo)] ∧
    ((handleOneKill conn id signo).1).children.lookup id = none ∧
    onChildProcessExit (handleOneKill conn id signo).1 id status =
      (handleOneKill conn id signo).1 ∧
    handleOneKill (handleOneKill conn id signo).1 id signo =
      ((handleOneKill conn id signo).1, []) := by
  have hkill : handleOneKill conn id signo =
      ({ conn with children := conn.children.eraseP (fun e => e.1 == id) },
       [(c.pidfd, signo)]) := by
    simp [handleOneKill, h]
  have hnone : ((handleOneKill conn id signo).1).children.lookup id = none := by
    rw [hkill]
    exact lookup_eraseP_none conn.children id hnd
  have hstep : ∀ cc : Connection, cc.children.lookup id = none →
      handleOneKill cc id signo = (cc, []) := by
    intro cc hcc
    simp [handleOneKill, hcc]
  have hexitstep : ∀ cc : Connection, cc.children.lookup id = none →
      onChildProcessExit cc id status = cc := by
    intro cc hcc
    simp [onChildProcessExit, hcc]
  exact ⟨by rw [hkill], hnone, hexitstep _ hnone, hstep _ hnone⟩

/-- Witness for C4 (amended) at the concrete connection of the
counterexample: signal 15 goes to pidfd 42, id 10 is gone from the map, the
termination event leaves the connection unchanged, and a second KILL
dispatches nothing. -/
theorem kill_live_child_detaches_witness :
    (handleOneKill ⟨[(10, ⟨42, "c"⟩)], [], []⟩ 10 15).2 = [(42, 15)] ∧
    ((handleOneKill ⟨[(10, ⟨42, "c"⟩)], [], []⟩ 10 15).1).children.lookup 10 =
      none ∧
    onChildProcessExit (handleOneKill ⟨[(10, ⟨42, "c"⟩)], [], []⟩ 10 15).1 10 15 =
      (handleOneKill ⟨[(10, ⟨42, "c"⟩)], [], []⟩ 10 15).1 ∧
    handleOneKill (handleOneKill ⟨[(10, ⟨42, "c"⟩)], [], []⟩ 10 15).1 10 15 =
      ((handleOneKill ⟨[(10, ⟨42, "c"⟩)], [], []⟩ 10 15).1, []) :=
  kill_live_child_detaches ⟨[(10, ⟨42, "c"⟩)], [], []⟩ 10 15 15 ⟨42, "c"⟩
    rfl (by simp)

/-- With the message's fd list exhausted, any command that still succeeds
leaves the list exhausted (no command creates fds), and cannot be
`EXEC_FD`. -/
theorem handleExecCommand_nil_fds (p p' : PreparedChildProcess)
    (c : SpawnExecCommand) (fds' : List Nat)
    (h : handleExecCommand p [] c = .ok (p', fds')) :
    fds' = [] ∧ c ≠ .EXEC_FD := by
  cases c <;>
    simp only [handleExecCommand, borrowFd] at h <;>
    first
      | (split at h <;> simp_all)
      | simp_all

/-- Parsing a command stream that references `EXEC_FD` with an exhausted fd
list always fails with `MalformedSpawnPayloadError`. -/
theorem parseExec_execfd_exhausted (cmds : List SpawnExecCommand)
    (hmem : SpawnExecCommand.EXEC_FD ∈ cmds) :
    ∀ p, parseExec cmds p [] = .error .malformedPayload := by
  induction cmds with
  | nil => cases hmem
  | cons c rest ih =>
      intro p
      rcases List.mem_cons.mp hmem with hc | hm
      · subst hc
        rfl
      · cases hcmd : handleExecCommand p [] c with
        | error e =>
            cases e
            simp [parseExec, hcmd]
        | ok pr =>
            obtain ⟨p', fds'⟩ := pr
            obtain ⟨hf, -⟩ := handleExecCommand_nil_fds p p' c fds' hcmd
            subst hf
            simp [parseExec, hcmd, ih hm p']

/-- C6: an EXEC message that references `EXEC_FD` when the message carries
no fds (the fd list is exhausted from the start) raises `MalformedPayload`
during parsing; `ReceiveAndHandle` catches it — no child is spawned, the
connection (children map and queues) is unchanged and stays alive reading
further messages. -/
theorem exec_fd_exhausted_preserves_connection
    (hook : Option (PreparedChildProcess → Bool))
    (cfgAllowed : Nat × Nat → Bool) (cfgDefault : Option (Nat × Nat))
    (newPidfd : Nat) (conn : Connection) (id : Nat) (cname : String)
    (cmds : List SpawnExecCommand)
    (hmem : SpawnExecCommand.EXEC_FD ∈ cmds) :
    parseExec cmds initPrepared [] = .error .malformedPayload ∧
    receiveAndHandle hook cfgAllowed cfgDefault newPidfd conn
        (.exec id cname cmds) [] = (conn, true, []) := by
  have hfail := parseExec_execfd_exhausted cmds hmem
  refine ⟨hfail initPrepared, ?_⟩
  simp [receiveAndHandle, handleMessage, handleExecMessage, hfail initPrepared]

/-- Witness for C6: a zero-fd EXEC whose payload is exactly `[EXEC_FD]`
against a connection with one live child: malformed, and the connection —
including the unrelated child — is untouched. -/
theorem exec_fd_exhausted_preserves_connection_witness :
    parseExec [.EXEC_FD] initPrepared [] = .error .malformedPayload ∧
    receiveAndHandle none (fun _ => true) none 0 ⟨[(3, ⟨8, "o"⟩)], [], []⟩
        (.exec 1 "x" [.EXEC_FD]) [] = (⟨[(3, ⟨8, "o"⟩)], [], []⟩, true, []) :=
  exec_fd_exhausted_preserves_connection none (fun _ => true) none 0
    ⟨[(3, ⟨8, "o"⟩)], [], []⟩ 1 "x" [.EXEC_FD] (by simp)

/-- Parsing a concatenated command stream parses the first part and, on
success, continues with the second from the reached state. -/
theorem parseExec_append (xs ys : List SpawnExecCommand) :
    ∀ (p : PreparedChildProcess) (fds : List Nat),
      parseExec (xs ++ ys) p fds =
        match parseExec xs p fds with
        | .error e => .error e
        | .ok (p', fds') => parseExec ys p' fds' := by
  induction xs with
  | nil =>
      intro p fds
      rfl
  | cons c rest ih =>
      intro p fds
      simp only [List.cons_append, parseExec]
      cases handleExecCommand p fds c with
      | error e => rfl
      | ok pr => exact ih pr.1 pr.2

/-- A successful command that is not `CGROUP` leaves an unset cgroup name
unset. -/
theorem handleExecCommand_cgroup_none (p p' : PreparedChildProcess)
    (fds fds' : List Nat) (c : SpawnExecCommand)
    (hc : ∀ s, c ≠ .CGROUP s) (hp : p.cgroup = none)
    (h : handleExecCommand p fds c = .ok (p', fds')) : p'.cgroup = none := by
  cases c <;>
    first
      | exact absurd rfl (hc _)
      | (simp only [handleExecCommand, borrowFd, hp, Except.ok.injEq,
           Prod.mk.injEq] at h;
         (try split at h) <;>
           first
             | exact Except.noConfusion h
             | ((try simp only [Except.ok.injEq, Prod.mk.injEq] at h) <;>
                (rw [← h.1] <;> exact hp)))

/-- Parsing a command stream free of `CGROUP` tags never sets the cgroup
name. -/
theorem parseExec_cgroup_none (pre : List SpawnExecCommand)
    (hpre : ∀ s, SpawnExecCommand.CGROUP s ∉ pre) :
    ∀ (p : PreparedChildProcess) (fds : List Nat) p' fds',
      p.cgroup = none → parseExec pre p fds = .ok (p', fds') →
      p'.cgroup = none := by
  induction pre with
  | nil =>
      intro p fds p' fds' hp h
      simp only [parseExec] at h
      cases h
      exact hp
  | cons c rest ih =>
      intro p fds p' fds' hp h
      have hc : ∀ s, c ≠ .CGROUP s := by
        intro s hcs
        exact hpre s (hcs ▸ List.mem_cons_self c rest)
      have hrest : ∀ s, SpawnExecCommand.CGROUP s ∉ rest := by
        intro s hs
        exact hpre s (List.mem_cons_of_mem c hs)
      simp only [parseExec] at h
      cases hcmd : handleExecCommand p fds c with
      | error e => simp [hcmd] at h
      | ok pr =>
          rw [hcmd] at h
          exact ih hrest pr.1 pr.2 p' fds'
            (handleExecCommand_cgroup_none p pr.1 fds pr.2 c hc hp hcmd) h

/-- C7: a `CGROUP_SESSION`, `CGROUP_SET` or `CGROUP_XATTR` tag appearing
before any `CGROUP` tag makes the whole EXEC payload malformed; once a
`CGROUP` name is set, each of the three is accepted and recorded. -/
theorem cgroup_attrs_require_cgroup_name
    (pre rest : List SpawnExecCommand) (fds : List Nat) (s n v g : String)
    (p : PreparedChildProcess)
    (hpre : ∀ t, SpawnExecCommand.CGROUP t ∉ pre) :
    parseExec (pre ++ .CGROUP_SESSION s :: rest) initPrepared fds =
      .error .malformedPayload ∧
    parseExec (pre ++ .CGROUP_SET n v :: rest) initPrepared fds =
      .error .malformedPayload ∧
    parseExec (pre ++ .CGROUP_XATTR n v :: rest) initPrepared fds =
      .error .malformedPayload ∧
    (p.cgroup = some g →
      handleExecCommand p fds (.CGROUP_SESSION s) =
        .ok ({ p with cgroup_session := some s }, fds) ∧
      handleExecCommand p fds (.CGROUP_SET n v) =
        .ok ({ p with cgroup_set := (n, v) :: p.cgroup_set }, fds) ∧
      handleExecCommand p fds (.CGROUP_XATTR n v) =
        .ok ({ p with cgroup_xattr := (n, v) :: p.cgroup_xattr }, fds)) := by
  have hfail : ∀ c : SpawnExecCommand,
      (∀ (pp : PreparedChildProcess) ffds, pp.cgroup = none →
        handleExecCommand pp ffds c = .error .malformedPayload) →
      parseExec (pre ++ c :: rest) initPrepared fds =
        .error .malformedPayload := by
    intro c hcfail
    rw [parseExec_append]
    cases hpp : parseExec pre initPrepared fds with
    | error e =>
        cases e
        rfl
    | ok pr =>
        have hnone := parseExec_cgroup_none pre hpre initPrepared fds
          pr.1 pr.2 rfl (by rw [hpp])
        simp [parseExec, hcfail pr.1 pr.2 hnone]
  refine ⟨?_, ?_, ?_, ?_⟩
  · exact hfail _ (fun pp ffds hn => by simp [handleExecCommand, hn])
  · exact hfail _ (fun pp ffds hn => by simp [handleExecCommand, hn])
  · exact hfail _ (fun pp ffds hn => by simp [handleExecCommand, hn])
  · intro hg
    exact ⟨by simp [handleExecCommand, hg], by simp [handleExecCommand, hg],
           by simp [handleExecCommand, hg]⟩

/-- Witness for C7 at concrete inputs: after `[ARG "a"]` (no CGROUP) each of
the three tags is malformed; with the cgroup name "web" set, `CGROUP_SESSION
"s1"` is recorded. -/
theorem cgroup_attrs_require_cgroup_name_witness :
    parseExec [.ARG "a", .CGROUP_SESSION "s1"] initPrepared [] =
      .error .malformedPayload ∧
    parseExec [.ARG "a", .CGROUP_SET "memory.max" "64M"] initPrepared [] =
      .error .malformedPayload ∧
    parseExec [.ARG "a", .CGROUP_XATTR "memory.max" "64M"] initPrepared [] =
      .error .malformedPayload ∧
    handleExecCommand { initPrepared with cgroup := some "web" } []
        (.CGROUP_SESSION "s1") =
      .ok ({ initPrepared with
             cgroup := some "web"
             cgroup_session := some "s1" }, []) := by
  have h := cgroup_attrs_require_cgroup_name [.ARG "a"] [] [] "s1" "memory.max"
    "64M" "web" { initPrepared with cgroup := some "web" } (by simp)
  have h4 := (h.2.2.2 rfl).1
  exact ⟨h.1, h.2.1, h.2.2.1, h4⟩

/-- Parsing `n` consecutive `ARG` tags succeeds while the total argument
count stays within the 16384 bound, appending the strings in order. -/
theorem parseExec_replicate_arg (s : String) :
    ∀ (n : Nat) (p : PreparedChildProcess) (fds : List Nat),
      p.args.length + n ≤ 16384 →
      parseExec (List.replicate n (.ARG s)) p fds =
        .ok ({ p with args := p.args ++ List.replicate n s }, fds) := by
  intro n
  induction n with
  | zero =>
      intro p fds _
      simp [parseExec]
  | succ m ih =>
      intro p fds hn
      have hlt : ¬ (p.args.length ≥ 16384) := by omega
      rw [List.replicate_succ]
      simp only [parseExec, handleExecCommand, if_neg hlt]
      rw [ih { p with args := p.args ++ [s] } fds (by simp; omega)]
      simp [List.append_assoc, List.replicate_succ]

/-- Parsing `n` consecutive `ARG` tags fails with `MalformedSpawnPayloadError`
as soon as the total would exceed 16384. -/
theorem parseExec_replicate_arg_overflow (s : String) :
    ∀ (n : Nat) (p : PreparedChildProcess) (fds : List Nat),
      16384 < p.args.length + n →
      0 < n →
      parseExec (List.replicate n (.ARG s)) p fds =
        .error .malformedPayload := by
  intro n
  induction n with
  | zero =>
      intro p fds _ h0
      exact absurd h0 (by omega)
  | succ m ih =>
      intro p fds hn _
      rw [List.replicate_succ]
      by_cases hfull : p.args.length ≥ 16384
      · simp [parseExec, handleExecCommand, if_pos hfull]
      · have hm : 0 < m := by omega
        simp only [parseExec, handleExecCommand, if_neg hfull]
        exact ih { p with args := p.args ++ [s] } fds (by simp; omega) hm

/-- Parsing `n` consecutive `SETENV` tags succeeds while the environment
count stays within the 16384 bound. -/
theorem parseExec_replicate_setenv (s : String) :
    ∀ (n : Nat) (p : PreparedChildProcess) (fds : List Nat),
      p.env.length + n ≤ 16384 →
      parseExec (List.replicate n (.SETENV s)) p fds =
        .ok ({ p with env := p.env ++ List.replicate n s }, fds) := by
  intro n
  induction n with
  | zero =>
      intro p fds _
      simp [parseExec]
  | succ m ih =>
      intro p fds hn
      have hlt : ¬ (p.env.length ≥ 16384) := by omega
      rw [List.replicate_succ]
      simp only [parseExec, handleExecCommand, if_neg hlt]
      rw [ih { p with env := p.env ++ [s] } fds (by simp; omega)]
      simp [List.append_assoc, List.replicate_succ]

/-- Parsing `n` consecutive `SETENV` tags fails once the total would exceed
16384. -/
theorem parseExec_replicate_setenv_overflow (s : String) :
    ∀ (n : Nat) (p : PreparedChildProcess) (fds : List Nat),
      16384 < p.env.length + n →
      0 < n →
      parseExec (List.replicate n (.SETENV s)) p fds =
        .error .malformedPayload := by
  intro n
  induction n with
  | zero =>
      intro p fds _ h0
      exact absurd h0 (by omega)
  | succ m ih =>
      intro p fds hn _
      rw [List.replicate_succ]
      by_cases hfull : p.env.length ≥ 16384
      · simp [parseExec, handleExecCommand, if_pos hfull]
      · have hm : 0 < m := by omega
        simp only [parseExec, handleExecCommand, if_neg hfull]
        exact ih { p with env := p.env ++ [s] } fds (by simp; omega) hm

/-- C8: exactly 16384 `ARG` tags (resp. `SETENV` tags) are accepted and one
more is rejected as malformed; the bound applies to argv and env
independently, as a payload with 16384 of each still parses. -/
theorem arg_env_bound_is_16384 :
    parseExec (List.replicate 16384 (.ARG "a")) initPrepared [] =
      .ok ({ initPrepared with args := List.replicate 16384 "a" }, []) ∧
    parseExec (List.replicate 16385 (.ARG "a")) initPrepared [] =
      .error .malformedPayload ∧
    parseExec (List.replicate 16384 (.SETENV "e=v")) initPrepared [] =
      .ok ({ initPrepared with env := List.replicate 16384 "e=v" }, []) ∧
    parseExec (List.replicate 16385 (.SETENV "e=v")) initPrepared [] =
      .error .malformedPayload ∧
    parseExec
        (List.replicate 16384 (.ARG "a") ++ List.replicate 16384 (.SETENV "e=v"))
        initPrepared [] =
      .ok ({ initPrepared with
             args := List.replicate 16384 "a"
             env := List.replicate 16384 "e=v" }, []) := by
  have harg := parseExec_replicate_arg "a" 16384 initPrepared [] (by decide)
  have henv := parseExec_replicate_setenv "e=v" 16384
    { initPrepared with args := List.replicate 16384 "a" } [] (by decide)
  refine ⟨harg, ?_, ?_, ?_, ?_⟩
  · exact parseExec_replicate_arg_overflow "a" 16385 initPrepared []
      (by decide) (by decide)
  · exact parseExec_replicate_setenv "e=v" 16384 initPrepared [] (by decide)
  · exact parseExec_replicate_setenv_overflow "e=v" 16385 initPrepared []
      (by decide) (by decide)
  · rw [parseExec_append, harg]
    exact henv

/-- `push_back(' ')` is appending a one-space string. -/
theorem push_space_eq (s : String) : s.push ' ' = s ++ " " := by
  cases s
  rfl

/-- Appending to a non-empty string stays non-empty. -/
theorem append_ne_empty_left (s t : String) (h : s ≠ "") : s ++ t ≠ "" := by
  intro he
  apply h
  have hd := congrArg String.data he
  rw [String.data_append] at hd
  exact String.ext (by simp [(List.append_eq_nil.mp hd).1])

/-- A non-empty string has `isEmpty = false`. -/
theorem isEmpty_false_of_ne (s : String) (h : s ≠ "") : s.isEmpty = false := by
  rw [Bool.eq_false_iff]
  intro ht
  exact h ((String.isEmpty_iff s).mp ht)

/-- The accumulation loop of `EnableAllControllers`, started from a
non-empty accumulator, produces exactly the space-joined `+name` entries of
the non-cpuset controllers (via `String.intercalate`'s accumulator). -/
theorem subtree_control_go (names : List String) :
    ∀ acc : String, acc ≠ "" →
      names.foldl
        (fun acc c =>
          if c = "cpuset" then acc
          else (if acc.isEmpty then acc else acc.push ' ') ++ ("+" ++ c)) acc =
      String.intercalate.go acc " "
        ((names.filter (fun c => c ≠ "cpuset")).map (fun c => "+" ++ c)) := by
  induction names with
  | nil =>
      intro acc _
      rfl
  | cons c rest ih =>
      intro acc hacc
      by_cases hcp : c = "cpuset"
      · subst hcp
        simp only [List.foldl_cons, if_pos rfl]
        have hfc : List.filter (fun x => decide (x ≠ "cpuset"))
            ("cpuset" :: rest) =
            List.filter (fun x => decide (x ≠ "cpuset")) rest := by
          simp
        rw [hfc]
        exact ih acc hacc
      · have hfc : List.filter (fun x => decide (x ≠ "cpuset")) (c :: rest) =
            c :: List.filter (fun x => decide (x ≠ "cpuset")) rest := by
          simp [hcp]
        have hne : ¬ (acc.isEmpty = true) := by
          simp [isEmpty_false_of_ne acc hacc]
        have hstep :
            (if c = "cpuset" then acc
             else (if acc.isEmpty then acc else acc.push ' ') ++ ("+" ++ c)) =
              acc ++ " " ++ ("+" ++ c) := by
          rw [if_neg hcp, if_neg hne, push_space_eq]
        simp only [List.foldl_cons]
        rw [hstep, hfc, List.map_cons]
        exact ih (acc ++ " " ++ ("+" ++ c))
          (append_ne_empty_left _ _ (append_ne_empty_left _ _ hacc))

/-- The imperative `subtree_control` string of `EnableAllControllers` equals
the space-separated join of `+name` for every advertised controller other
than `cpuset`. -/
theorem buildSubtreeControl_eq (names : List String) :
    buildSubtreeControl names =
      String.intercalate " "
        ((names.filter (fun c => c ≠ "cpuset")).map (fun c => "+" ++ c)) := by
  induction names with
  | nil => rfl
  | cons c rest ih =>
      by_cases hcp : c = "cpuset"
      · subst hcp
        unfold buildSubtreeControl at ih ⊢
        simp only [List.foldl_cons, if_pos rfl]
        have hfc : List.filter (fun x => decide (x ≠ "cpuset"))
            ("cpuset" :: rest) =
            List.filter (fun x => decide (x ≠ "cpuset")) rest := by
          simp
        rw [hfc]
        exact ih
      · have hfc : List.filter (fun x => decide (x ≠ "cpuset")) (c :: rest) =
            c :: List.filter (fun x => decide (x ≠ "cpuset")) rest := by
          simp [hcp]
        unfold buildSubtreeControl
        rw [hfc, List.map_cons]
        simp only [List.foldl_cons, if_neg hcp, if_pos (by decide :
          ("" : String).isEmpty = true), String.empty_append]
        exact subtree_control_go rest ("+" ++ c)
          (append_ne_empty_left "+" c (by decide))

/-- C9: `EnableAllControllers` first creates the `_` leaf under the group
(mode 0700 = 448) and migrates the process by writing "0" to the leaf's
`cgroup.procs`, and only then (third operation) writes the enable string to
the group's `cgroup.subtree_control`; that string is exactly the
space-joined `+<controller>` entries for every controller advertised in
`cgroup.controllers` except `cpuset`, and a `+cpuset` entry never occurs. -/
theorem enableAllControllers_migrate_then_enable (gp contents : String) :
    (enableAllControllers gp contents)[0]? =
      some (.makeDirectory gp "_" 448) ∧
    (enableAllControllers gp contents)[1]? =
      some (.writeFile (gp ++ "/_") "cgroup.procs" "0") ∧
    (enableAllControllers gp contents)[2]? =
      some (.writeFile gp "cgroup.subtree_control"
        (buildSubtreeControl (forEachControllerNames contents))) ∧
    buildSubtreeControl (forEachControllerNames contents) =
      String.intercalate " "
        (((forEachControllerNames contents).filter
            (fun c => c ≠ "cpuset")).map (fun c => "+" ++ c)) ∧
    "+cpuset" ∉
      ((forEachControllerNames contents).filter
          (fun c => c ≠ "cpuset")).map (fun c => "+" ++ c) := by
  refine ⟨rfl, rfl, rfl, buildSubtreeControl_eq _, ?_⟩
  intro hmem
  rw [List.mem_map] at hmem
  obtain ⟨c, hcf, hplus⟩ := hmem
  rw [List.mem_filter] at hcf
  have hc : c = "cpuset" := by
    have hplus2 : "+" ++ c = "+" ++ "cpuset" := by
      rw [hplus]
      decide
    have hd := congrArg String.data hplus2
    rw [String.data_append, String.data_append] at hd
    exact String.ext (List.append_cancel_left hd)
  rw [hc] at hcf
  simpa using hcf.2

end SpawnServer
